import Mathlib

-- Verification development for the api-core backend (FastAPI/SQLAlchemy social
-- assistance platform).  The Python route handlers, schemas and models are
-- shallowly embedded as executable Lean definitions: database tables become
-- lists of rows, a handler becomes a function from the table state and the
-- request to an `Except` of the HTTP error or the response plus the new state,
-- and timestamps become abstract `Nat` clock values supplied by the caller.

namespace ApiCore

-- ===================== Data model (src/app/models) =====================

/-- Role enum from models/user.py. -/
inductive Role
  | beneficiario
  | assistente
  | admin
deriving DecidableEq, Repr

/-- Article status enum from models/article.py. -/
inductive ArticleStatus
  | draft
  | pending
  | approved
  | rejected
deriving DecidableEq, Repr

/-- Donation status enum from models/donation.py. -/
inductive DonationStatus
  | pending
  | completed
  | failed
deriving DecidableEq, Repr

/-- HTTP-level failure outcomes raised by the handlers.  `valueError` stands
for an uncaught Python `ValueError` (a 500 for the client). -/
inductive HErr
  | badRequest (detail : String)
  | unauthorized (detail : String)
  | forbidden (detail : String)
  | notFound (detail : String)
  | serviceUnavailable (detail : String)
  | valueError (detail : String)
deriving DecidableEq, Repr

/-- Row of the `users` table (models/user.py). -/
structure User where
  id : Nat
  email : String
  name : Option String
  social_name : Option String
  cpf : Option String
  password_hash : String
  role : Role
  is_active : Bool
  assistente_id : Option Nat
  org_id : Option Nat
  created_at : Nat
deriving DecidableEq, Repr

/-- Row of the `articles` table (models/article.py). -/
structure Article where
  id : Nat
  title : String
  slug : String
  body_md : String
  link_doc : Option String
  link_image : Option String
  tags : String
  status : ArticleStatus
  version : Nat
  author_id : Option Nat
  approved_by_id : Option Nat
  created_at : Nat
  updated_at : Nat
  approved_at : Option Nat
deriving DecidableEq, Repr

/-- Row of the `orgs` table (models/org.py). -/
structure Org where
  id : Nat
  name : String
  email : String
  description : Option String
  invite_code : String
  verified : Bool
  approved : Bool
  approved_by_id : Option Nat
  created_at : Nat
  updated_at : Nat
  verified_at : Option Nat
  approved_at : Option Nat
deriving DecidableEq, Repr

/-- Row of the `chats` table (models/chat.py). -/
structure Chat where
  id : Nat
  user_id : Option Nat
  session_id : Option String
  title : Option String
  summary : Option String
  is_active : Bool
  rating : Option Nat
  rating_comment : Option String
  rated_at : Option Nat
  created_at : Nat
  updated_at : Nat
deriving DecidableEq, Repr

/-- Row of the `chat_messages` table (models/chat.py). -/
structure ChatMessage where
  id : Nat
  chat_id : Nat
  role : String
  content : String
  message_metadata : Option String
  created_at : Nat
deriving DecidableEq, Repr

/-- Row of the `refresh_tokens` table (models/token.py). -/
structure RefreshTokenRow where
  id : Nat
  user_id : Nat
  token : String
  expires_at : Nat
  is_revoked : Bool
  revoked_at : Option Nat
deriving DecidableEq, Repr

/-- Row of the `donations` table (models/donation.py); monetary amounts are
modelled as rationals. -/
structure Donation where
  id : Nat
  donor_name : String
  donor_email : Option String
  org_id : Nat
  amount : ℚ
  currency : String
  status : DonationStatus
  message : Option String
  people_impacted : Option Nat
  created_at : Nat
  completed_at : Option Nat
deriving DecidableEq, Repr

/-- Row of the `donation_ledger` table (models/donation.py). -/
structure DonationLedgerRow where
  donation_id : Nat
  entry_type : String
  description : String
  amount : Option ℚ
  ledger_metadata : Option String
  created_at : Nat
deriving DecidableEq, Repr

-- ===================== Python string primitives =====================

-- Strings handled by the routers are modelled at the ASCII level: the Lean
-- functions below agree with Python's str.lower / str.isalnum / str.strip /
-- str.split on ASCII input, which is the granularity the spec speaks at.

/-- ASCII model of Python `str.lower` on a single character. -/
def pyToLower (c : Char) : Char :=
  if 65 ≤ c.toNat ∧ c.toNat ≤ 90 then Char.ofNat (c.toNat + 32) else c

/-- ASCII model of Python `str.isalnum` on a single character. -/
def pyIsAlnum (c : Char) : Bool :=
  (65 ≤ c.toNat && c.toNat ≤ 90) || (97 ≤ c.toNat && c.toNat ≤ 122) ||
    (48 ≤ c.toNat && c.toNat ≤ 57)

/-- Model of Python `str.strip` (drop leading and trailing whitespace). -/
def pyStrip (cs : List Char) : List Char :=
  ((cs.dropWhile Char.isWhitespace).reverse.dropWhile Char.isWhitespace).reverse

/-- Model of Python `str.strip` at the string level. -/
def pyStripStr (s : String) : String :=
  String.mk (pyStrip s.toList)

/-- Helper for `pyWords`: accumulates the current word (reversed) while
scanning. -/
def wordsAux (acc : List Char) : List Char → List (List Char)
  | [] => if acc.isEmpty then [] else [acc.reverse]
  | c :: rest =>
    if c.isWhitespace then
      if acc.isEmpty then wordsAux [] rest else acc.reverse :: wordsAux [] rest
    else
      wordsAux (c :: acc) rest

/-- Model of Python `str.split()` with no separator: maximal runs of
non-whitespace characters. -/
def pyWords (cs : List Char) : List (List Char) :=
  wordsAux [] cs

/-- Model of Python `"-".join(parts)`. -/
def pyJoinHyphen : List (List Char) → List Char
  | [] => []
  | [p] => p
  | p :: q :: rest => p ++ '-' :: pyJoinHyphen (q :: rest)

/-- Model of Python truthy-or on optional strings: `x or d` with
`None`/empty-string falsiness. -/
def pyOrStr (x : Option String) (d : String) : String :=
  match x with
  | some s => if s.isEmpty then d else s
  | none => d

-- ===================== Slug generation (routers/articles.py) =====================

/-- Embedding of `_generate_slug` (articles.py lines 35-37):
lower-case the title, strip it, split into words, join with hyphens and keep
only alphanumeric characters and hyphens. -/
def generate_slug (title : String) : String :=
  let lowered := pyStrip (title.toList.map pyToLower)
  let joined := pyJoinHyphen (pyWords lowered)
  String.mk (joined.filter (fun c => pyIsAlnum c || c == '-'))

/-- Candidate slug tried at loop iteration `suffix` of `_ensure_unique_slug`:
the base slug itself for suffix 1, `base-suffix` afterwards. -/
def candidateSlug (base : String) (suffix : Nat) : String :=
  if suffix = 1 then base else base ++ "-" ++ Nat.repr suffix

/-- Embedding of the collision query inside `_ensure_unique_slug`
(articles.py lines 72-75): a candidate is taken when some stored article
carries it, excluding the article's own row when a truthy `article_id` was
supplied. -/
def slugTaken (arts : List Article) (articleId : Option Nat) (cand : String) : Bool :=
  arts.any (fun a =>
    a.slug == cand &&
      (match articleId with
       | some i => if i = 0 then true else !(a.id == i)
       | none => true))

/-- Fuelled version of the `while True` loop of `_ensure_unique_slug`: try
`candidateSlug base suffix`, and on collision move to the next suffix. -/
def ensureUniqueSlugAux (arts : List Article) (articleId : Option Nat)
    (base : String) : Nat → Nat → String
  | suffix, 0 => candidateSlug base suffix
  | suffix, fuel + 1 =>
    let cand := candidateSlug base suffix
    if slugTaken arts articleId cand then
      ensureUniqueSlugAux arts articleId base (suffix + 1) fuel
    else
      cand

/-- Embedding of `_ensure_unique_slug` (articles.py lines 67-79).  The Python
loop always terminates because only finitely many slugs are stored; here the
loop receives fuel `arts.length + 1`, which the pigeonhole argument below
shows is always sufficient. -/
def ensure_unique_slug (arts : List Article) (slug : String)
    (articleId : Option Nat) : String :=
  let base := if slug.isEmpty then "article" else slug
  ensureUniqueSlugAux arts articleId base 1 (arts.length + 1)

/-- Character predicate of claim C4: lowercase ASCII alphanumerics and
hyphens. -/
def isLowerSlugChar (c : Char) : Bool :=
  (97 ≤ c.toNat && c.toNat ≤ 122) || (48 ≤ c.toNat && c.toNat ≤ 57) || c == '-'

/-- Decimal value of a digit character. -/
def charVal10 (c : Char) : Nat := c.toNat - 48

/-- Decimal value of a big-endian digit string. -/
def val10 : List Char → Nat
  | [] => 0
  | c :: cs => charVal10 c * 10 ^ cs.length + val10 cs

-- ===================== Authorization helpers (dependencies.py) =====================

/-- Modelled from the spec: the `User.is_admin` attribute read by
routers/articles.py and routers/chat.py is not defined by the `User` model in
the snapshot; per the spec's authorization policy (require_admin passes only
role=admin, and chat.py guards its admin statistics endpoint with this very
attribute and the message "apenas administradores") it is the admin-role
test. -/
def User.is_admin (u : User) : Bool := u.role == Role.admin

/-- Gate of `require_assistente_or_admin` (dependencies.py lines 72-84):
only assistants and admins pass. -/
def requireAssistenteOrAdmin (u : User) : Bool :=
  u.role == Role.assistente || u.role == Role.admin

-- ===================== Articles router (routers/articles.py) =====================

/-- Body of POST /articles/approve (schemas/article.py). -/
structure ApproveArticleRequest where
  article_id : Nat
  approved : Bool
  reason : Option String
deriving DecidableEq, Repr

/-- Response of POST /articles/approve (schemas/article.py). -/
structure ArticleApprovalResponse where
  article_id : Nat
  status : ArticleStatus
  approved_by_id : Nat
  approved_at : Nat
  message : String
deriving DecidableEq, Repr

/-- Body of PUT /articles (schemas/article.py `ArticleUpdate`); `some` marks a
field present in the request (`exclude_unset` semantics). -/
structure ArticleUpdate where
  title : Option String
  body_md : Option String
  tags : Option String
  link_doc : Option String
  link_image : Option String
  status : Option ArticleStatus
deriving DecidableEq, Repr

/-- Embedding of `approve_article` (articles.py lines 380-412).  The handler
is authenticated (`get_current_user`) but performs no role check: it stamps
the approver and timestamp, sets the status from the `approved` flag and
builds the response message, surfacing the free-text reason on rejection. -/
def approve_article (db : List Article) (payload : ApproveArticleRequest)
    (current_user : User) (now : Nat) :
    Except HErr (ArticleApprovalResponse × List Article) :=
  match db.find? (fun a => a.id == payload.article_id) with
  | none => .error (.notFound "Artigo não encontrado")
  | some article =>
    let article' :=
      { article with
        approved_by_id := some current_user.id
        approved_at := some now
        status := if payload.approved then ArticleStatus.approved
                  else ArticleStatus.rejected }
    let db' := db.map (fun a => if a.id == payload.article_id then article' else a)
    let message :=
      if payload.approved then "Artigo aprovado com sucesso."
      else "Artigo rejeitado: " ++ pyOrStr payload.reason "sem motivo informado"
    .ok ({ article_id := article'.id
           status := article'.status
           approved_by_id := current_user.id
           approved_at := now
           message := message }, db')

/-- Applies the `setattr` loop of `update_article` to the found row, after the
slug regeneration done when a title is supplied. -/
def applyArticleUpdate (db : List Article) (article : Article)
    (data : ArticleUpdate) (now : Nat) : Article :=
  let article :=
    match data.title with
    | some t =>
      { article with
        slug := ensure_unique_slug db (generate_slug t) (some article.id) }
    | none => article
  let article :=
    { article with
      title := data.title.getD article.title
      body_md := data.body_md.getD article.body_md
      tags := data.tags.getD article.tags
      link_doc := match data.link_doc with
                  | some v => some v
                  | none => article.link_doc
      link_image := match data.link_image with
                    | some v => some v
                    | none => article.link_image
      status := data.status.getD article.status }
  { article with updated_at := now, version := article.version + 1 }

/-- Embedding of PUT /articles (`update_article`, articles.py lines 225-257):
404 when the article is missing, 403 unless the caller is the author or
`is_admin`, otherwise apply the provided fields, regenerate and dedupe the
slug when the title changes, and bump the version. -/
def update_article (db : List Article) (article_id : Nat) (data : ArticleUpdate)
    (current_user : User) (now : Nat) : Except HErr (Article × List Article) :=
  match db.find? (fun a => a.id == article_id) with
  | none => .error (.notFound "Artigo não encontrado")
  | some article =>
    if article.author_id ≠ some current_user.id ∧ ¬current_user.is_admin then
      .error (.forbidden "Você não tem permissão para editar este artigo")
    else
      let article' := applyArticleUpdate db article data now
      .ok (article', db.map (fun a => if a.id == article_id then article' else a))

-- ===================== Auth router (routers/auth.py, security.py) =====================

/-- Claims of a decoded JWT as read by the routers: subject, token type and
expiry (signature and expiry validity are what `decode_token` checks, so a
`some` result stands for a token that passed both). -/
structure JwtPayload where
  sub : Nat
  type : String
  exp : Nat
deriving DecidableEq, Repr

/-- Response of POST /auth/refresh. -/
structure AccessTokenResponse where
  access_token : String
  token_type : String
  expires_in : Nat
deriving DecidableEq, Repr

/-- Embedding of `refresh_access_token` (auth.py lines 200-238), parameterized
by the JWT collaborators: `decode` models `decode_token` (none on any
validation failure) and `mkAccess` models `create_access_token`. -/
def refresh_access_token (decode : String → Option JwtPayload)
    (mkAccess : Nat → String) (expiresMin : Nat)
    (db : List RefreshTokenRow) (refresh_token : String) (now : Nat) :
    Except HErr AccessTokenResponse :=
  match decode refresh_token with
  | none => .error (.unauthorized "Refresh token inválido")
  | some payload =>
    if payload.type ≠ "refresh" then
      .error (.unauthorized "Refresh token inválido")
    else
      match db.find? (fun r => r.token == refresh_token && r.is_revoked == false) with
      | none => .error (.unauthorized "Refresh token inválido ou revogado")
      | some row =>
        if row.expires_at < now then
          .error (.unauthorized "Refresh token expirado")
        else
          .ok { access_token := mkAccess payload.sub
                token_type := "bearer"
                expires_in := expiresMin * 60 }

/-- Embedding of `hash_password` (security.py lines 11-17), parameterized by
the external bcrypt primitive: raises `ValueError` exactly when the UTF-8
encoding of the password exceeds 72 bytes. -/
def hash_password (bcryptHash : String → String) (password : String) :
    Except HErr String :=
  if 72 < password.utf8ByteSize then
    .error (.valueError "Senha deve ter no máximo 72 bytes")
  else
    .ok (bcryptHash password)

/-- Normalization of an optional CPF (auth.py lines 60-67): when a truthy CPF
is supplied, keep only its digits and require exactly 11 of them. -/
def normalizeCpf (cpf : Option String) : Except HErr (Option String) :=
  match cpf with
  | none => .ok none
  | some c =>
    if c.isEmpty then .ok none
    else
      let digits := String.mk (c.toList.filter Char.isDigit)
      if digits.length ≠ 11 then .error (.badRequest "CPF deve ter 11 dígitos")
      else .ok (some digits)

/-- Embedding of the state-relevant pipeline of POST /auth/register (auth.py
lines 36-99): password length check, CPF normalization, email and CPF
uniqueness checks, then user creation whose `password_hash` calls
`hash_password` before the row is added.  Profile-image upload and token
issuance (external collaborators, after the row exists) are elided. -/
def register (bcryptHash : String → String) (db : List User)
    (email password name : String) (social_name cpf : Option String)
    (now newId : Nat) : Except HErr (User × List User) :=
  if password.length < 6 then
    .error (.badRequest "Senha deve ter no mínimo 6 caracteres")
  else
    match normalizeCpf cpf with
    | .error e => .error e
    | .ok normalized_cpf =>
      if (db.find? (fun u => u.email == email)).isSome then
        .error (.badRequest "Email já cadastrado")
      else if normalized_cpf.isSome &&
          (db.find? (fun u => u.cpf == normalized_cpf)).isSome then
        .error (.badRequest "CPF já cadastrado")
      else
        match hash_password bcryptHash password with
        | .error e => .error e
        | .ok h =>
          let user : User :=
            { id := newId
              email := email
              name := some name
              social_name := social_name
              cpf := normalized_cpf
              password_hash := h
              role := Role.beneficiario
              is_active := true
              assistente_id := none
              org_id := none
              created_at := now }
          .ok (user, db ++ [user])

-- ===================== Chat router (routers/chat.py) =====================

/-- Body of POST /chats (schemas/chat.py `ChatCreate`). -/
structure ChatCreate where
  title : Option String
  session_id : Option String
deriving DecidableEq, Repr

/-- Body of PATCH /chats (schemas/chat.py `ChatUpdate`); `some` marks a field
present in the request. -/
structure ChatUpdate where
  title : Option String
  summary : Option String
  is_active : Option Bool
deriving DecidableEq, Repr

/-- Validated body of POST /chats/messages (schemas/chat.py). -/
structure ChatMessageCreate where
  content : String
  role : String
deriving DecidableEq, Repr

/-- Validated body of the rating endpoint (schemas/chat.py). -/
structure ChatRatingCreate where
  rating : Nat
  comment : Option String
deriving DecidableEq, Repr

/-- Response of the rating endpoint. -/
structure ChatRatingResponse where
  chat_id : Nat
  rating : Nat
  rating_comment : Option String
  rated_at : Nat
  message : String
deriving DecidableEq, Repr

/-- The chat tables touched by the chat router. -/
structure ChatState where
  chats : List Chat
  messages : List ChatMessage
deriving DecidableEq, Repr

/-- Embedding of POST /chats (`create_chat`, chat.py lines 28-48): an
authenticated caller gets `user_id` set, otherwise `session_id` is copied
from the request body. -/
def create_chat (st : ChatState) (data : ChatCreate)
    (current_user : Option User) (now newId : Nat) : Chat × ChatState :=
  let chat : Chat :=
    { id := newId
      user_id := current_user.map (fun u => u.id)
      session_id := if current_user.isSome then none else data.session_id
      title := data.title
      summary := none
      is_active := true
      rating := none
      rating_comment := none
      rated_at := none
      created_at := now
      updated_at := now }
  (chat, { st with chats := st.chats ++ [chat] })

/-- Embedding of POST /auth/anonymous-session (auth.py lines 370-390):
creates a chat owned by a freshly generated session id. -/
def create_anonymous_session (st : ChatState) (session_id : String)
    (now newId : Nat) : Chat × ChatState :=
  let chat : Chat :=
    { id := newId
      user_id := none
      session_id := some session_id
      title := none
      summary := none
      is_active := true
      rating := none
      rating_comment := none
      rated_at := none
      created_at := now
      updated_at := now }
  (chat, { st with chats := st.chats ++ [chat] })

/-- The access check repeated in get/update/delete/message handlers of
chat.py: an authenticated caller must own the chat; an anonymous caller is
never rejected. -/
def chatAccessDenied (current_user : Option User) (chat : Chat) : Bool :=
  match current_user with
  | some u => !(chat.user_id == some u.id)
  | none => false

/-- Embedding of GET /chats (`get_chat`, chat.py lines 85-103). -/
def get_chat (st : ChatState) (chat_id : Nat) (current_user : Option User) :
    Except HErr Chat :=
  match st.chats.find? (fun c => c.id == chat_id) with
  | none => .error (.notFound "Chat não encontrado")
  | some chat =>
    if chatAccessDenied current_user chat then
      .error (.forbidden "Você não tem acesso a este chat")
    else
      .ok chat

/-- Embedding of PATCH /chats (`update_chat`, chat.py lines 106-132). -/
def update_chat (st : ChatState) (chat_id : Nat) (data : ChatUpdate)
    (current_user : Option User) (now : Nat) :
    Except HErr (Chat × ChatState) :=
  match st.chats.find? (fun c => c.id == chat_id) with
  | none => .error (.notFound "Chat não encontrado")
  | some chat =>
    if chatAccessDenied current_user chat then
      .error (.forbidden "Você não tem acesso a este chat")
    else
      let chat' :=
        { chat with
          title := match data.title with
                   | some v => some v
                   | none => chat.title
          summary := match data.summary with
                     | some v => some v
                     | none => chat.summary
          is_active := data.is_active.getD chat.is_active
          updated_at := now }
      .ok (chat', { st with
        chats := st.chats.map (fun c => if c.id == chat_id then chat' else c) })

/-- Embedding of DELETE /chats (`delete_chat`, chat.py lines 135-154); the
ORM cascade also removes the chat's messages. -/
def delete_chat (st : ChatState) (chat_id : Nat) (current_user : Option User) :
    Except HErr ChatState :=
  match st.chats.find? (fun c => c.id == chat_id) with
  | none => .error (.notFound "Chat não encontrado")
  | some chat =>
    if chatAccessDenied current_user chat then
      .error (.forbidden "Você não tem acesso a este chat")
    else
      .ok { chats := st.chats.filter (fun c => !(c.id == chat_id))
            messages := st.messages.filter (fun m => !(m.chat_id == chat_id)) }

/-- Embedding of POST /chats/messages (`create_message`, chat.py lines
159-188). -/
def create_message (st : ChatState) (chat_id : Nat) (data : ChatMessageCreate)
    (current_user : Option User) (now newId : Nat) :
    Except HErr (ChatMessage × ChatState) :=
  match st.chats.find? (fun c => c.id == chat_id) with
  | none => .error (.notFound "Chat não encontrado")
  | some chat =>
    if chatAccessDenied current_user chat then
      .error (.forbidden "Você não tem acesso a este chat")
    else
      let msg : ChatMessage :=
        { id := newId
          chat_id := chat_id
          role := data.role
          content := data.content
          message_metadata := none
          created_at := now }
      let chat' := { chat with updated_at := now }
      .ok (msg, { chats := st.chats.map (fun c => if c.id == chat_id then chat' else c)
                  messages := st.messages ++ [msg] })

/-- Embedding of GET /chats/messages (`list_messages`, chat.py lines
191-218). -/
def list_messages (st : ChatState) (chat_id : Nat) (lim : Nat)
    (current_user : Option User) : Except HErr (List ChatMessage) :=
  match st.chats.find? (fun c => c.id == chat_id) with
  | none => .error (.notFound "Chat não encontrado")
  | some chat =>
    if chatAccessDenied current_user chat then
      .error (.forbidden "Você não tem acesso a este chat")
    else
      .ok ((List.insertionSort (fun a b => a.created_at ≤ b.created_at)
        (st.messages.filter (fun m => m.chat_id == chat_id))).take lim)

/-- Embedding of the rating endpoint (`rate_chat`, chat.py lines 223-264);
note its access check additionally lets any authenticated caller rate an
ownerless chat. -/
def rate_chat (st : ChatState) (chat_id : Nat) (data : ChatRatingCreate)
    (current_user : Option User) (now : Nat) :
    Except HErr (ChatRatingResponse × ChatState) :=
  match st.chats.find? (fun c => c.id == chat_id) with
  | none => .error (.notFound "Chat não encontrado")
  | some chat =>
    if (match current_user, chat.user_id with
        | some u, some uid => !(uid == u.id)
        | _, _ => false) then
      .error (.forbidden "Você não tem acesso a este chat")
    else
      let chat' :=
        { chat with
          rating := some data.rating
          rating_comment := data.comment
          rated_at := some now
          updated_at := now }
      .ok ({ chat_id := chat'.id
             rating := data.rating
             rating_comment := data.comment
             rated_at := now
             message := "Avaliação atualizada com sucesso" },
           { st with
             chats := st.chats.map (fun c => if c.id == chat_id then chat' else c) })

/-- The mutual-exclusivity ownership invariant of claim C9. -/
def chatOwnershipExclusive (c : Chat) : Prop :=
  (c.user_id = none ∨ c.session_id = none) ∧
    ¬(c.user_id = none ∧ c.session_id = none)

/-- The weaker invariant the code actually maintains: never both owners. -/
def chatOwnershipAtMostOne (c : Chat) : Prop :=
  c.user_id = none ∨ c.session_id = none

-- ===================== Beneficiaries router (routers/beneficiarios.py) =====================

/-- Substring test modelling SQL `LIKE concat of percent needle percent`. -/
def isSubstr (needle : List Char) : List Char → Bool
  | [] => needle.isEmpty
  | c :: rest => needle.isPrefixOf (c :: rest) || isSubstr needle rest

/-- SQL `lower(col) LIKE needle` on an optional column: NULL never
matches. -/
def likeLowerOpt (col : Option String) (needle : String) : Bool :=
  match col with
  | some s => isSubstr needle.toList (s.toList.map pyToLower)
  | none => false

/-- The search filter of `list_beneficiarios` (beneficiarios.py lines
58-67). -/
def beneficiarioMatchesSearch (u : User) (search : String) : Bool :=
  let like := String.mk (search.toList.map pyToLower)
  likeLowerOpt u.name like || likeLowerOpt u.social_name like ||
    isSubstr like.toList (u.email.toList.map pyToLower) ||
    (match u.cpf with
     | some c => isSubstr search.toList c.toList
     | none => false)

/-- offset/limit pagination shared by the list endpoints. -/
def paginate (l : List α) (page page_size : Nat) : List α :=
  (l.drop ((page - 1) * page_size)).take page_size

/-- Embedding of GET /beneficiarios (`list_beneficiarios`, beneficiarios.py
lines 42-77): gated by `require_assistente_or_admin`; an assistant's query is
forced onto their own beneficiaries, an admin may filter by the
`assistente_id` query parameter; then search, order by creation time
descending and paginate. -/
def list_beneficiarios (db : List User) (current_user : User)
    (page page_size : Nat) (search : Option String)
    (assistente_id : Option Nat) : Except HErr (List User) :=
  if ¬requireAssistenteOrAdmin current_user then
    .error (.forbidden "Acesso negado: apenas assistentes ou administradores")
  else
    let q := db.filter (fun u => u.role == Role.beneficiario)
    let q :=
      if current_user.role == Role.assistente then
        q.filter (fun u => u.assistente_id == some current_user.id)
      else
        match assistente_id with
        | some a => q.filter (fun u => u.assistente_id == some a)
        | none => q
    let q :=
      match search with
      | some s => q.filter (fun u => beneficiarioMatchesSearch u s)
      | none => q
    .ok (paginate (List.insertionSort (fun a b => b.created_at ≤ a.created_at) q)
      page page_size)

-- ===================== Orgs router (routers/orgs.py) =====================

/-- Body of POST /orgs/approve (schemas/org.py). -/
structure ApproveOrgRequest where
  org_id : Nat
  approved : Bool
  reason : Option String
deriving DecidableEq, Repr

/-- Response of POST /orgs/approve (schemas/org.py). -/
structure OrgApprovalResponse where
  org_id : Nat
  approved : Bool
  approved_by_id : Nat
  approved_at : Nat
  message : String
deriving DecidableEq, Repr

/-- Embedding of POST /orgs/approve (`approve_org`, orgs.py lines 285-326):
sets the approved flag, stamps approver and timestamp, force-verifies on
approval, and builds the response message; the best-effort notification email
(swallowed when unconfigured) has no state effect. -/
def approve_org (orgs : List Org) (payload : ApproveOrgRequest)
    (current_user : User) (now : Nat) :
    Except HErr (OrgApprovalResponse × List Org) :=
  match orgs.find? (fun o => o.id == payload.org_id) with
  | none => .error (.notFound "ONG não encontrada")
  | some org =>
    let org' :=
      { org with
        approved := payload.approved
        approved_by_id := some current_user.id
        approved_at := some now }
    let org' :=
      if payload.approved then
        { org' with verified := true, verified_at := some now }
      else
        org'
    let message :=
      if payload.approved then "ONG aprovada com sucesso."
      else "ONG rejeitada: " ++ pyOrStr payload.reason "sem motivo informado"
    .ok ({ org_id := org'.id
           approved := org'.approved
           approved_by_id := current_user.id
           approved_at := now
           message := message },
         orgs.map (fun o => if o.id == payload.org_id then org' else o))

-- ===================== Donations router (routers/donations.py) =====================

/-- Rational model of Python `round(v, 2)` (round half to even at the second
decimal place). -/
def round2 (v : ℚ) : ℚ :=
  let scaled := v * 100
  let fl := ⌊scaled⌋
  let frac := scaled - (fl : ℚ)
  let r : ℤ :=
    if frac < 1 / 2 then fl
    else if 1 / 2 < frac then fl + 1
    else if fl % 2 = 0 then fl else fl + 1
  (r : ℚ) / 100

/-- Embedding of `DonationBase.validate_amount` (schemas/donation.py lines
16-23): positive, at most one million, rounded to two decimals. -/
def validate_amount (v : ℚ) : Except String ℚ :=
  if v ≤ 0 then .error "Valor deve ser maior que zero"
  else if 1000000 < v then .error "Valor muito alto"
  else .ok (round2 v)

/-- Validated body of POST /donations (schemas/donation.py
`DonationCreate`). -/
structure DonationCreate where
  donor_name : String
  donor_email : Option String
  org_id : Nat
  amount : ℚ
  message : Option String
  people_impacted : Nat
deriving DecidableEq, Repr

/-- The tables touched by the donations router. -/
structure DonationState where
  orgs : List Org
  donations : List Donation
  ledger : List DonationLedgerRow
deriving DecidableEq, Repr

/-- Embedding of `_add_ledger_entry` (donations.py lines 31-48). -/
def add_ledger_entry (donation_id : Nat) (entry_type description : String)
    (amount : Option ℚ) (metadata : Option String) (now : Nat) :
    DonationLedgerRow :=
  { donation_id := donation_id
    entry_type := entry_type
    description := description
    amount := amount
    ledger_metadata := metadata
    created_at := now }

/-- Embedding of POST /donations (`create_donation`, donations.py lines
51-86): 404 without any write when the org is missing, otherwise a completed
donation plus its "created" and "completed" ledger rows committed
together. -/
def create_donation (st : DonationState) (data : DonationCreate)
    (now newId : Nat) : Except HErr (Donation × DonationState) :=
  if (st.orgs.find? (fun o => o.id == data.org_id)).isNone then
    .error (.notFound "ONG não encontrada")
  else
    let donation : Donation :=
      { id := newId
        donor_name := data.donor_name
        donor_email := data.donor_email
        org_id := data.org_id
        amount := data.amount
        currency := "BRL"
        status := DonationStatus.completed
        message := data.message
        people_impacted := some data.people_impacted
        created_at := now
        completed_at := some now }
    let e1 := add_ledger_entry newId "created" "Doação criada via mock gateway."
      (some data.amount) none now
    let e2 := add_ledger_entry newId "completed"
      "Doação marcada como concluída automaticamente." (some data.amount) none now
    .ok (donation,
         { st with
           donations := st.donations ++ [donation]
           ledger := st.ledger ++ [e1, e2] })

-- ===================== Concrete fixtures for witnesses =====================

/-- An admin user fixture. -/
def adminUser : User :=
  { id := 1, email := "admin@x.com", name := some "Admin", social_name := none,
    cpf := none, password_hash := "h1", role := Role.admin, is_active := true,
    assistente_id := none, org_id := none, created_at := 0 }

/-- An assistant user fixture. -/
def assistUser : User :=
  { id := 2, email := "assist@x.com", name := some "Ana", social_name := none,
    cpf := none, password_hash := "h2", role := Role.assistente, is_active := true,
    assistente_id := none, org_id := none, created_at := 0 }

/-- A beneficiary fixture linked to `assistUser`. -/
def benefUser : User :=
  { id := 3, email := "benef@x.com", name := some "Bia", social_name := none,
    cpf := none, password_hash := "h3", role := Role.beneficiario, is_active := true,
    assistente_id := some 2, org_id := none, created_at := 1 }

/-- A second assistant fixture. -/
def assistUser2 : User :=
  { id := 9, email := "assist2@x.com", name := some "Caio", social_name := none,
    cpf := none, password_hash := "h9", role := Role.assistente, is_active := true,
    assistente_id := none, org_id := none, created_at := 0 }

/-- A beneficiary fixture linked to `assistUser2`. -/
def benefUser2 : User :=
  { id := 4, email := "benef2@x.com", name := some "Davi", social_name := none,
    cpf := none, password_hash := "h4", role := Role.beneficiario, is_active := true,
    assistente_id := some 9, org_id := none, created_at := 2 }

/-- A pending article fixture authored by `benefUser`. -/
def pendingArticle : Article :=
  { id := 1, title := "Guia de Saude", slug := "guia-de-saude", body_md := "corpo",
    link_doc := none, link_image := none, tags := "saude", status := ArticleStatus.pending,
    version := 1, author_id := some 3, approved_by_id := none, created_at := 0,
    updated_at := 0, approved_at := none }

/-- An unapproved, unverified org fixture. -/
def exOrg : Org :=
  { id := 3, name := "ONG Esperanca", email := "ong@x.com", description := none,
    invite_code := "ABC12345", verified := false, approved := false,
    approved_by_id := none, created_at := 0, updated_at := 0, verified_at := none,
    approved_at := none }

/-- An anonymous chat fixture owned by a session token. -/
def anonChat : Chat :=
  { id := 7, user_id := none, session_id := some "anon_secret", title := none,
    summary := none, is_active := true, rating := none, rating_comment := none,
    rated_at := none, created_at := 0, updated_at := 0 }

/-- A chat fixture owned by user 3. -/
def ownedChat : Chat :=
  { id := 8, user_id := some 3, session_id := none, title := some "ajuda",
    summary := none, is_active := true, rating := none, rating_comment := none,
    rated_at := none, created_at := 0, updated_at := 0 }

/-- A revoked refresh-token row fixture. -/
def revokedToken : RefreshTokenRow :=
  { id := 1, user_id := 3, token := "rt1", expires_at := 1000, is_revoked := true,
    revoked_at := some 50 }

-- ===================== Helper lemmas: decimal digits and Nat.repr =====================

theorem digitChar_toNat {d : Nat} (h : d < 10) : (Nat.digitChar d).toNat = 48 + d := by
  interval_cases d <;> decide

theorem charVal10_digitChar {d : Nat} (h : d < 10) :
    charVal10 (Nat.digitChar d) = d := by
  simp [charVal10, digitChar_toNat h]

theorem toDigitsCore_val (fuel : Nat) :
    ∀ (n : Nat) (ds : List Char), n < 10 ^ fuel →
      val10 (Nat.toDigitsCore 10 fuel n ds) = n * 10 ^ ds.length + val10 ds := by
  induction fuel with
  | zero =>
    intro n ds h
    simp only [pow_zero, Nat.lt_one_iff] at h
    subst h
    simp [Nat.toDigitsCore]
  | succ f ih =>
    intro n ds h
    rw [Nat.toDigitsCore]
    by_cases h0 : n / 10 = 0
    · have hn : n < 10 := by omega
      simp only [h0, if_true]
      rw [val10, charVal10_digitChar (Nat.mod_lt n (by norm_num)),
        Nat.mod_eq_of_lt hn]
    · have hlt : n / 10 < 10 ^ f := by
        rw [Nat.div_lt_iff_lt_mul (by norm_num)]
        rw [pow_succ] at h
        exact h
      simp only [h0, if_false]
      rw [ih (n / 10) (Nat.digitChar (n % 10) :: ds) hlt]
      rw [val10, charVal10_digitChar (Nat.mod_lt n (by norm_num))]
      have hkey : n / 10 * 10 ^ (Nat.digitChar (n % 10) :: ds).length +
          (n % 10 * 10 ^ ds.length + val10 ds) =
          (n / 10 * 10 + n % 10) * 10 ^ ds.length + val10 ds := by
        simp only [List.length_cons]
        ring
      rw [hkey, Nat.div_add_mod']

theorem val10_toDigits (n : Nat) : val10 (Nat.toDigits 10 n) = n := by
  have hlt : n < 10 ^ (n + 1) :=
    lt_of_lt_of_le (Nat.lt_pow_self (by norm_num) n)
      (Nat.pow_le_pow_right (by norm_num) (Nat.le_succ n))
  simpa [Nat.toDigits, val10] using toDigitsCore_val (n + 1) n [] hlt

theorem toDigits_injective {n m : Nat}
    (h : Nat.toDigits 10 n = Nat.toDigits 10 m) : n = m := by
  rw [← val10_toDigits n, ← val10_toDigits m, h]

theorem string_data_append (a b : String) : (a ++ b).data = a.data ++ b.data := by
  cases a
  cases b
  rfl

theorem candidateSlug_injective (base : String) {j k : Nat}
    (h : candidateSlug base j = candidateSlug base k) : j = k := by
  unfold candidateSlug at h
  by_cases hj : j = 1 <;> by_cases hk : k = 1
  · rw [hj, hk]
  · exfalso
    rw [if_pos hj, if_neg hk] at h
    have hdata := congrArg String.data h
    have hdash : ("-" : String).data = ['-'] := rfl
    simp only [string_data_append, hdash] at hdata
    have hlen := congrArg List.length hdata
    simp only [List.length_append, List.length_cons, List.length_nil] at hlen
    omega
  · exfalso
    rw [if_neg hj, if_pos hk] at h
    have hdata := congrArg String.data h
    have hdash : ("-" : String).data = ['-'] := rfl
    simp only [string_data_append, hdash] at hdata
    have hlen := congrArg List.length hdata
    simp only [List.length_append, List.length_cons, List.length_nil] at hlen
    omega
  · rw [if_neg hj, if_neg hk] at h
    have hdata := congrArg String.data h
    have hdash : ("-" : String).data = ['-'] := rfl
    simp only [string_data_append, hdash] at hdata
    rw [List.append_assoc, List.append_assoc] at hdata
    have h1 := List.append_cancel_left hdata
    have h2 : (Nat.repr j).data = (Nat.repr k).data := List.append_cancel_left h1
    exact toDigits_injective h2

theorem slugTaken_mem {arts : List Article} {aid : Option Nat} {cand : String}
    (h : slugTaken arts aid cand = true) :
    cand ∈ arts.map (fun a => a.slug) := by
  rcases List.any_eq_true.mp h with ⟨a, ha, hpa⟩
  simp only [Bool.and_eq_true, beq_iff_eq] at hpa
  exact List.mem_map.mpr ⟨a, ha, hpa.1⟩

theorem exists_untaken (arts : List Article) (aid : Option Nat) (base : String) :
    ∃ k, 1 ≤ k ∧ k ≤ arts.length + 1 ∧
      slugTaken arts aid (candidateSlug base k) = false := by
  by_contra hc
  push_neg at hc
  have htaken : ∀ k, 1 ≤ k → k ≤ arts.length + 1 →
      candidateSlug base k ∈ arts.map (fun a => a.slug) := by
    intro k h1 h2
    have hne := hc k h1 h2
    have htrue : slugTaken arts aid (candidateSlug base k) = true := by
      cases hb : slugTaken arts aid (candidateSlug base k)
      · exact absurd hb hne
      · rfl
    exact slugTaken_mem htrue
  classical
  have hinj : Function.Injective
      (fun i : Fin (arts.length + 1) => candidateSlug base (i.1 + 1)) := by
    intro i j hij
    have := candidateSlug_injective base hij
    exact Fin.ext (by omega)
  have hsub : Finset.image
      (fun i : Fin (arts.length + 1) => candidateSlug base (i.1 + 1))
      Finset.univ ⊆ (arts.map (fun a => a.slug)).toFinset := by
    intro s hs
    rcases Finset.mem_image.mp hs with ⟨i, _, rfl⟩
    exact List.mem_toFinset.mpr (htaken (i.1 + 1) (by omega) (by omega))
  have hcard1 : (Finset.image
      (fun i : Fin (arts.length + 1) => candidateSlug base (i.1 + 1))
      Finset.univ).card = arts.length + 1 := by
    rw [Finset.card_image_of_injective _ hinj, Finset.card_univ, Fintype.card_fin]
  have hcard2 : (arts.map (fun a => a.slug)).toFinset.card ≤ arts.length := by
    calc (arts.map (fun a => a.slug)).toFinset.card
        ≤ (arts.map (fun a => a.slug)).length := (arts.map (fun a => a.slug)).toFinset_card_le
      _ = arts.length := List.length_map _ _
  have := Finset.card_le_card hsub
  omega

theorem ensureAux_not_taken (arts : List Article) (aid : Option Nat) (base : String) :
    ∀ (fuel suffix : Nat),
      (∃ k, suffix ≤ k ∧ k < suffix + fuel ∧
        slugTaken arts aid (candidateSlug base k) = false) →
      slugTaken arts aid (ensureUniqueSlugAux arts aid base suffix fuel) = false := by
  intro fuel
  induction fuel with
  | zero =>
    intro s hex
    rcases hex with ⟨k, h1, h2, _⟩
    omega
  | succ f ih =>
    intro s hex
    rcases hex with ⟨k, h1, h2, hk⟩
    rw [ensureUniqueSlugAux]
    by_cases hs : slugTaken arts aid (candidateSlug base s) = true
    · simp only [hs, if_true]
      apply ih
      refine ⟨k, ?_, by omega, hk⟩
      rcases Nat.eq_or_lt_of_le h1 with rfl | hlt
      · rw [hk] at hs
        cases hs
      · omega
    · have hs' : slugTaken arts aid (candidateSlug base s) = false := by
        cases hb : slugTaken arts aid (candidateSlug base s)
        · rfl
        · exact absurd hb hs
      simp only [hs', if_false]
      exact hs'

theorem ensureAux_form (arts : List Article) (aid : Option Nat) (base : String) :
    ∀ (fuel suffix : Nat), ∃ k, suffix ≤ k ∧
      ensureUniqueSlugAux arts aid base suffix fuel = candidateSlug base k := by
  intro fuel
  induction fuel with
  | zero =>
    intro s
    exact ⟨s, Nat.le_refl s, rfl⟩
  | succ f ih =>
    intro s
    rw [ensureUniqueSlugAux]
    by_cases hs : slugTaken arts aid (candidateSlug base s) = true
    · simp only [hs, if_true]
      rcases ih (s + 1) with ⟨k, hk1, hk2⟩
      exact ⟨k, by omega, hk2⟩
    · simp only [Bool.not_eq_true] at hs
      simp only [hs, if_false]
      exact ⟨s, Nat.le_refl s, rfl⟩

theorem ensure_unique_slug_not_taken (arts : List Article) (slug : String)
    (aid : Option Nat) :
    slugTaken arts aid (ensure_unique_slug arts slug aid) = false := by
  unfold ensure_unique_slug
  apply ensureAux_not_taken
  rcases exists_untaken arts aid (if slug.isEmpty then "article" else slug) with
    ⟨k, h1, h2, h3⟩
  exact ⟨k, h1, by omega, h3⟩

theorem ensure_unique_slug_form (arts : List Article) (slug : String)
    (aid : Option Nat) :
    ∃ k, 1 ≤ k ∧ ensure_unique_slug arts slug aid =
      candidateSlug (if slug.isEmpty then "article" else slug) k := by
  unfold ensure_unique_slug
  exact ensureAux_form arts aid _ (arts.length + 1) 1

-- ===================== Helper lemmas: slug characters =====================

theorem pyToLower_not_upper (c : Char) :
    ¬(65 ≤ (pyToLower c).toNat ∧ (pyToLower c).toNat ≤ 90) := by
  unfold pyToLower
  by_cases h : 65 ≤ c.toNat ∧ c.toNat ≤ 90
  · rw [if_pos h]
    obtain ⟨h1, h2⟩ := h
    generalize c.toNat = n at h1 h2 ⊢
    interval_cases n <;> decide
  · rw [if_neg h]
    exact h

theorem toDigitsCore_mem (fuel : Nat) :
    ∀ (n : Nat) (ds : List Char) (c : Char), c ∈ Nat.toDigitsCore 10 fuel n ds →
      c ∈ ds ∨ (48 ≤ c.toNat ∧ c.toNat ≤ 57) := by
  induction fuel with
  | zero =>
    intro n ds c h
    exact Or.inl h
  | succ f ih =>
    intro n ds c h
    rw [Nat.toDigitsCore] at h
    have hdigit : 48 ≤ (Nat.digitChar (n % 10)).toNat ∧
        (Nat.digitChar (n % 10)).toNat ≤ 57 := by
      have := digitChar_toNat (Nat.mod_lt n (show 0 < 10 by norm_num))
      omega
    by_cases h0 : n / 10 = 0
    · simp only [h0, if_true] at h
      rcases List.mem_cons.mp h with rfl | h'
      · exact Or.inr hdigit
      · exact Or.inl h'
    · simp only [h0, if_false] at h
      rcases ih (n / 10) (Nat.digitChar (n % 10) :: ds) c h with hin | hd
      · rcases List.mem_cons.mp hin with rfl | h'
        · exact Or.inr hdigit
        · exact Or.inl h'
      · exact Or.inr hd

theorem mem_wordsAux :
    ∀ (l acc w : List Char) (c : Char),
      w ∈ wordsAux acc l → c ∈ w → c ∈ acc ∨ c ∈ l := by
  intro l
  induction l with
  | nil =>
    intro acc w c hw hc
    unfold wordsAux at hw
    by_cases ha : acc.isEmpty = true
    · rw [if_pos ha] at hw
      exact absurd hw (List.not_mem_nil w)
    · rw [if_neg ha] at hw
      have hw' : w = acc.reverse := by simpa using hw
      subst hw'
      exact Or.inl (List.mem_reverse.mp hc)
  | cons x xs ih =>
    intro acc w c hw hc
    unfold wordsAux at hw
    by_cases hx : x.isWhitespace = true
    · rw [if_pos hx] at hw
      by_cases ha : acc.isEmpty = true
      · rw [if_pos ha] at hw
        rcases ih [] w c hw hc with h | h
        · exact absurd h (List.not_mem_nil c)
        · exact Or.inr (List.mem_cons_of_mem x h)
      · rw [if_neg ha] at hw
        rcases List.mem_cons.mp hw with rfl | hw'
        · exact Or.inl (List.mem_reverse.mp hc)
        · rcases ih [] w c hw' hc with h | h
          · exact absurd h (List.not_mem_nil c)
          · exact Or.inr (List.mem_cons_of_mem x h)
    · rw [if_neg hx] at hw
      rcases ih (x :: acc) w c hw hc with h | h
      · rcases List.mem_cons.mp h with rfl | h'
        · exact Or.inr (List.mem_cons_self c xs)
        · exact Or.inl h'
      · exact Or.inr (List.mem_cons_of_mem x h)

theorem mem_pyJoinHyphen :
    ∀ (parts : List (List Char)) (c : Char),
      c ∈ pyJoinHyphen parts → c = '-' ∨ ∃ p ∈ parts, c ∈ p := by
  intro parts
  induction parts with
  | nil =>
    intro c h
    cases h
  | cons p rest ih =>
    intro c h
    cases rest with
    | nil =>
      rw [pyJoinHyphen] at h
      exact Or.inr ⟨p, List.mem_cons_self p [], h⟩
    | cons q rs =>
      rw [pyJoinHyphen] at h
      rcases List.mem_append.mp h with h1 | h2
      · exact Or.inr ⟨p, List.mem_cons_self p (q :: rs), h1⟩
      · rcases List.mem_cons.mp h2 with rfl | h3
        · exact Or.inl rfl
        · rcases ih c h3 with h4 | ⟨p', hp', hc'⟩
          · exact Or.inl h4
          · exact Or.inr ⟨p', List.mem_cons_of_mem p hp', hc'⟩

theorem mem_pyStrip {cs : List Char} {c : Char} (h : c ∈ pyStrip cs) : c ∈ cs := by
  unfold pyStrip at h
  rw [List.mem_reverse] at h
  have h1 : c ∈ (cs.dropWhile Char.isWhitespace).reverse :=
    (List.dropWhile_sublist _).mem h
  rw [List.mem_reverse] at h1
  exact (List.dropWhile_sublist _).mem h1

theorem generate_slug_chars (title : String) :
    ∀ c ∈ (generate_slug title).data, isLowerSlugChar c = true := by
  intro c hc
  unfold generate_slug at hc
  rcases List.mem_filter.mp hc with ⟨hmem, hpred⟩
  by_cases hhy : c = '-'
  · simp [isLowerSlugChar, hhy]
  · have halnum : pyIsAlnum c = true := by
      cases hb : pyIsAlnum c
      · rw [hb] at hpred
        exact absurd (by simpa using hpred) hhy
      · rfl
    rcases mem_pyJoinHyphen _ c hmem with rfl | ⟨p, hp, hcp⟩
    · exact absurd rfl hhy
    · have hstr : c ∈ pyStrip (title.toList.map pyToLower) := by
        rcases mem_wordsAux _ [] p c hp hcp with h | h
        · exact absurd h (List.not_mem_nil c)
        · exact h
      have hlc : c ∈ title.toList.map pyToLower := mem_pyStrip hstr
      rcases List.mem_map.mp hlc with ⟨x, _, rfl⟩
      have hnup := pyToLower_not_upper x
      simp only [pyIsAlnum, Bool.or_eq_true, Bool.and_eq_true,
        decide_eq_true_eq] at halnum
      simp only [isLowerSlugChar, Bool.or_eq_true, Bool.and_eq_true,
        decide_eq_true_eq]
      rcases halnum with h | h
      · rcases h with h | h
        · exact absurd h hnup
        · exact Or.inl (Or.inl h)
      · exact Or.inl (Or.inr h)

theorem article_base_chars :
    ∀ c ∈ ("article" : String).data, isLowerSlugChar c = true := by
  decide

theorem candidateSlug_chars {base : String}
    (hbase : ∀ c ∈ base.data, isLowerSlugChar c = true) (k : Nat) :
    ∀ c ∈ (candidateSlug base k).data, isLowerSlugChar c = true := by
  intro c hc
  unfold candidateSlug at hc
  by_cases hk : k = 1
  · rw [if_pos hk] at hc
    exact hbase c hc
  · rw [if_neg hk] at hc
    rw [string_data_append, string_data_append] at hc
    rcases List.mem_append.mp hc with h1 | h2
    · rcases List.mem_append.mp h1 with h3 | h4
      · exact hbase c h3
      · have : c = '-' := by simpa using h4
        simp [isLowerSlugChar, this]
    · have h2' : c ∈ Nat.toDigitsCore 10 (k + 1) k [] := h2
      rcases toDigitsCore_mem (k + 1) k [] c h2' with h | h
      · exact absurd h (List.not_mem_nil c)
      · simp only [isLowerSlugChar, Bool.or_eq_true, Bool.and_eq_true,
          decide_eq_true_eq]
        exact Or.inl (Or.inr h)

-- ===================== Claim C1 =====================

/-- C1: the claim says POST /articles/approve is admin-only, and the schema of
the request documents the endpoint as admin-only, but the handler performs no
role check: here a beneficiary-role authenticated caller approves article 1
and the handler happily stamps approval and mutates the row, instead of
rejecting with an authorization error and leaving the article unchanged. -/
theorem approve_article_no_admin_gate :
    benefUser.role ≠ Role.admin ∧
    approve_article [pendingArticle]
        { article_id := 1, approved := true, reason := none } benefUser 5 =
      Except.ok
        ({ article_id := 1, status := ArticleStatus.approved,
           approved_by_id := 3, approved_at := 5,
           message := "Artigo aprovado com sucesso." },
         [{ pendingArticle with
            status := ArticleStatus.approved,
            approved_by_id := some 3,
            approved_at := some 5 }]) := by
  exact ⟨by decide, by rfl⟩

-- ===================== Claim C7 =====================

/-- C7: approving an org with approved=false stamps the flag, the approver id
and the timestamp on the org row, leaves `verified`/`verified_at` (and the
other org fields) unchanged, and surfaces the supplied rejection reason in
the response message; approving with approved=true additionally force-sets
`verified` and `verified_at`. -/
theorem approve_org_approval_frame (orgs : List Org)
    (payload : ApproveOrgRequest) (cu : User) (now : Nat) (org : Org)
    (hfind : orgs.find? (fun o => o.id == payload.org_id) = some org) :
    ∃ resp orgs', approve_org orgs payload cu now = Except.ok (resp, orgs') ∧
      resp.approved = payload.approved ∧
      resp.approved_by_id = cu.id ∧
      resp.approved_at = now ∧
      (∀ o ∈ orgs', o.id = org.id →
        o.approved = payload.approved ∧
        o.approved_by_id = some cu.id ∧
        o.approved_at = some now ∧
        (payload.approved = false →
          o.verified = org.verified ∧ o.verified_at = org.verified_at ∧
          o.name = org.name ∧ o.email = org.email ∧
          o.invite_code = org.invite_code ∧ o.description = org.description) ∧
        (payload.approved = true → o.verified = true ∧ o.verified_at = some now)) ∧
      (payload.approved = false → ∀ r, payload.reason = some r → ¬r.isEmpty →
        resp.message = "ONG rejeitada: " ++ r) := by
  have hid : org.id = payload.org_id := by
    have := List.find?_some hfind
    simpa using this
  unfold approve_org
  rw [hfind]
  refine ⟨_, _, rfl, ?_, ?_, ?_, ?_, ?_⟩
  · by_cases hap : payload.approved <;> simp [hap]
  · rfl
  · rfl
  · intro o ho hoid
    rcases List.mem_map.mp ho with ⟨o0, ho0, rfl⟩
    by_cases h0 : o0.id == payload.org_id
    · simp only [h0, if_true]
      by_cases hap : payload.approved <;>
        simp [hap]
    · exfalso
      simp only [h0, Bool.false_eq_true, if_false] at hoid
      rw [hoid] at h0
      simp [hid] at h0
  · intro hap r hr hre
    simp only [hap, Bool.false_eq_true, if_false, hr, pyOrStr]
    rw [if_neg hre]

/-- Witness for C7: rejecting org 3 with reason "docs incomplete" leaves it
unverified and mentions the reason. -/
theorem approve_org_approval_frame_witness :
    ∃ resp orgs',
      approve_org [exOrg]
          { org_id := 3, approved := false, reason := some "docs incomplete" }
          adminUser 11 = Except.ok (resp, orgs') ∧
      (∀ o ∈ orgs', o.id = exOrg.id →
        o.approved = false ∧ o.verified = exOrg.verified) ∧
      resp.message = "ONG rejeitada: " ++ "docs incomplete" := by
  rcases approve_org_approval_frame [exOrg]
      { org_id := 3, approved := false, reason := some "docs incomplete" }
      adminUser 11 exOrg (by rfl) with
    ⟨resp, orgs', heq, h1, h2, h3, h4, h5⟩
  refine ⟨resp, orgs', heq, ?_, ?_⟩
  · intro o ho hoid
    rcases h4 o ho hoid with ⟨ha, _, _, hframe, _⟩
    exact ⟨ha, (hframe rfl).1⟩
  · exact h5 rfl "docs incomplete" rfl (by decide)

-- ===================== Claim C5 =====================

/-- C5: creating a donation for an existing org immediately yields a
completed donation whose amount is the validated (2-decimal-rounded) request
amount, appends exactly the two ledger rows "created" and "completed" (each
carrying that amount) together with the donation row, and when the org does
not exist nothing is written and the handler returns 404. -/
theorem create_donation_completed_ledger (st : DonationState)
    (data : DonationCreate) (now newId : Nat) (raw : ℚ)
    (horg : (st.orgs.find? (fun o => o.id == data.org_id)).isSome = true)
    (hval : validate_amount raw = Except.ok data.amount)
    (hfresh : ∀ e ∈ st.ledger, e.donation_id ≠ newId) :
    (∃ d st', create_donation st data now newId = Except.ok (d, st') ∧
      d.status = DonationStatus.completed ∧
      d.amount = data.amount ∧
      d.amount = round2 raw ∧
      st'.donations = st.donations ++ [d] ∧
      st'.orgs = st.orgs ∧
      st'.ledger.filter (fun e => e.donation_id == newId) =
        [add_ledger_entry newId "created" "Doação criada via mock gateway."
           (some data.amount) none now,
         add_ledger_entry newId "completed"
           "Doação marcada como concluída automaticamente."
           (some data.amount) none now]) ∧
    (∀ st2 : DonationState,
      (st2.orgs.find? (fun o => o.id == data.org_id)).isNone = true →
      create_donation st2 data now newId =
        Except.error (.notFound "ONG não encontrada")) := by
  have hamount : data.amount = round2 raw := by
    unfold validate_amount at hval
    by_cases h1 : raw ≤ 0
    · rw [if_pos h1] at hval
      cases hval
    · rw [if_neg h1] at hval
      by_cases h2 : (1000000 : ℚ) < raw
      · rw [if_pos h2] at hval
        cases hval
      · rw [if_neg h2] at hval
        simp only [Except.ok.injEq] at hval
        exact hval.symm
  have hne : ¬(st.orgs.find? (fun o => o.id == data.org_id)).isNone = true := by
    simp only [Option.isNone_iff_eq_none]
    intro hnone
    rw [hnone] at horg
    cases horg
  constructor
  · unfold create_donation
    rw [if_neg hne]
    refine ⟨_, _, rfl, rfl, rfl, hamount, rfl, rfl, ?_⟩
    have hfil : st.ledger.filter (fun e => e.donation_id == newId) = [] := by
      rw [List.filter_eq_nil_iff]
      intro e he
      simpa using hfresh e he
    simp [List.filter_append, hfil, add_ledger_entry]
  · intro st2 hnone
    unfold create_donation
    rw [if_pos hnone]

/-- Witness for C5: a donation of 250.00 to the existing org 3 succeeds with
status completed and the two ledger rows each carrying 250. -/
theorem create_donation_completed_ledger_witness :
    ∃ d st', create_donation
        { orgs := [exOrg], donations := [], ledger := [] }
        { donor_name := "Dani", donor_email := none, org_id := 3, amount := 250,
          message := none, people_impacted := 5 } 4 1 = Except.ok (d, st') ∧
      d.status = DonationStatus.completed ∧ d.amount = 250 ∧
      st'.ledger.filter (fun e => e.donation_id == 1) =
        [add_ledger_entry 1 "created" "Doação criada via mock gateway."
           (some 250) none 4,
         add_ledger_entry 1 "completed"
           "Doação marcada como concluída automaticamente." (some 250) none 4] := by
  rcases (create_donation_completed_ledger
      { orgs := [exOrg], donations := [], ledger := [] }
      { donor_name := "Dani", donor_email := none, org_id := 3, amount := 250,
        message := none, people_impacted := 5 } 4 1 250 (by rfl)
      (by norm_num [validate_amount, round2]) (by simp)).1 with
    ⟨d, st', heq, hstatus, hamt, _, _, _, hledger⟩
  exact ⟨d, st', heq, hstatus, hamt, hledger⟩

-- ===================== Claim C3 =====================

theorem refresh_ok_shape (decode : String → Option JwtPayload)
    (mkAccess : Nat → String) (em : Nat) (db : List RefreshTokenRow)
    (t : String) (now : Nat) (resp : AccessTokenResponse)
    (hok : refresh_access_token decode mkAccess em db t now = Except.ok resp) :
    ∃ payload r, decode t = some payload ∧ payload.type = "refresh" ∧
      r ∈ db ∧ r.token = t ∧ r.is_revoked = false ∧ now ≤ r.expires_at ∧
      resp.access_token = mkAccess payload.sub := by
  unfold refresh_access_token at hok
  split at hok
  · cases hok
  · rename_i payload hdec
    split at hok
    · cases hok
    · rename_i hty
      split at hok
      · cases hok
      · rename_i row hfind
        split at hok
        · cases hok
        · rename_i hexp
          have hp := List.find?_some hfind
          simp only [Bool.and_eq_true, beq_iff_eq] at hp
          refine ⟨payload, row, hdec, by simpa using hty,
            List.mem_of_find?_eq_some hfind, hp.1, hp.2, by omega, ?_⟩
          cases hok
          rfl

/-- C3: POST /auth/refresh rejects with an authentication error whenever
every stored row carrying the presented token is revoked or expired (in
particular when no non-revoked row exists), and issues a new access token
only when the token decodes as a refresh token and its stored row is
non-revoked and non-expired. -/
theorem refresh_token_validation (decode : String → Option JwtPayload)
    (mkAccess : Nat → String) (em : Nat) (db : List RefreshTokenRow)
    (t : String) (now : Nat) :
    ((∀ r ∈ db, r.token = t → (r.is_revoked = true ∨ r.expires_at < now)) →
      ∃ e, refresh_access_token decode mkAccess em db t now = Except.error e) ∧
    (∀ resp, refresh_access_token decode mkAccess em db t now = Except.ok resp →
      ∃ payload r, decode t = some payload ∧ payload.type = "refresh" ∧
        r ∈ db ∧ r.token = t ∧ r.is_revoked = false ∧ now ≤ r.expires_at ∧
        resp.access_token = mkAccess payload.sub) := by
  constructor
  · intro hbad
    cases hres : refresh_access_token decode mkAccess em db t now with
    | error e => exact ⟨e, rfl⟩
    | ok resp =>
      exfalso
      rcases refresh_ok_shape decode mkAccess em db t now resp hres with
        ⟨payload, r, _, _, hmem, htok, hrev, hexp, _⟩
      rcases hbad r hmem htok with h | h
      · rw [hrev] at h
        cases h
      · omega
  · intro resp hok
    exact refresh_ok_shape decode mkAccess em db t now resp hok

/-- Witness for C3: presenting the revoked token "rt1" (which still decodes
fine and is unexpired) is rejected. -/
theorem refresh_token_validation_witness :
    ∃ e, refresh_access_token
        (fun _ => some { sub := 3, type := "refresh", exp := 1000 })
        (fun _ => "newtok") 30 [revokedToken] "rt1" 10 = Except.error e :=
  (refresh_token_validation
      (fun _ => some { sub := 3, type := "refresh", exp := 1000 })
      (fun _ => "newtok") 30 [revokedToken] "rt1" 10).1 (by decide)

-- ===================== Claim C4 =====================

/-- C4: the slug computed at article creation (strip the title, generate,
dedupe against all stored slugs) contains only lowercase alphanumerics and
hyphens, differs from every stored slug, and has the form base or
base-k (k from the -2, -3, ... suffix loop); at a title update the
dedupe excludes the article's own row. -/
theorem article_slug_unique_and_wellformed (arts : List Article)
    (title : String) (aid : Nat) (hpos : 0 < aid) :
    (∀ c ∈ (ensure_unique_slug arts (generate_slug (pyStripStr title)) none).data,
        isLowerSlugChar c = true) ∧
    (∀ a ∈ arts, a.slug ≠ ensure_unique_slug arts (generate_slug (pyStripStr title)) none) ∧
    (∃ k, 1 ≤ k ∧
      ensure_unique_slug arts (generate_slug (pyStripStr title)) none =
        candidateSlug
          (if (generate_slug (pyStripStr title)).isEmpty then "article"
           else generate_slug (pyStripStr title)) k) ∧
    (∀ a ∈ arts, a.id ≠ aid →
      a.slug ≠ ensure_unique_slug arts (generate_slug (pyStripStr title)) (some aid)) := by
  have hbase : ∀ c ∈ ((if (generate_slug (pyStripStr title)).isEmpty then "article"
      else generate_slug (pyStripStr title)) : String).data, isLowerSlugChar c = true := by
    by_cases he : (generate_slug (pyStripStr title)).isEmpty
    · rw [if_pos he]
      exact article_base_chars
    · rw [if_neg he]
      exact generate_slug_chars (pyStripStr title)
  refine ⟨?_, ?_, ?_, ?_⟩
  · intro c hc
    rcases ensure_unique_slug_form arts (generate_slug (pyStripStr title)) none with
      ⟨k, _, hform⟩
    rw [hform] at hc
    exact candidateSlug_chars hbase k c hc
  · intro a ha
    have hnt := ensure_unique_slug_not_taken arts (generate_slug (pyStripStr title)) none
    unfold slugTaken at hnt
    rw [List.any_eq_false] at hnt
    have := hnt a ha
    simp only [Bool.and_eq_true, beq_iff_eq, Bool.and_true] at this
    simpa using this
  · exact ensure_unique_slug_form arts (generate_slug (pyStripStr title)) none
  · intro a ha hne
    have hnt := ensure_unique_slug_not_taken arts (generate_slug (pyStripStr title)) (some aid)
    unfold slugTaken at hnt
    rw [List.any_eq_false] at hnt
    have h1 := hnt a ha
    intro heq
    rw [heq] at h1
    have haid : ¬aid = 0 := by omega
    simp [haid, hne] at h1

/-- Witness for C4: with the slug guia-de-saude already stored, creating an
article titled "Guia de Saude" dedupes away from the stored slug. -/
theorem article_slug_unique_witness :
    (∀ a ∈ [pendingArticle], a.slug ≠
      ensure_unique_slug [pendingArticle] (generate_slug (pyStripStr "Guia de Saude")) none) ∧
    ensure_unique_slug [pendingArticle] (generate_slug (pyStripStr "Guia de Saude")) none =
      "guia-de-saude-2" :=
  ⟨(article_slug_unique_and_wellformed [pendingArticle] "Guia de Saude" 1
      (by decide)).2.1, by rfl⟩

-- ===================== Claim C6 =====================

/-- C6: listing beneficiaries as an assistant only ever returns users whose
assistente_id is the caller's own id; an admin receives beneficiaries
(optionally restricted by the assistente_id query parameter), and with no
filter every stored beneficiary is returned on a sufficiently large first
page. -/
theorem list_beneficiarios_scoping (db : List User) (cu : User)
    (page page_size : Nat) (search : Option String) (aid : Option Nat) :
    (cu.role = Role.assistente →
      ∀ res, list_beneficiarios db cu page page_size search aid = Except.ok res →
        ∀ u ∈ res, u.assistente_id = some cu.id ∧ u.role = Role.beneficiario) ∧
    (cu.role = Role.admin →
      ∀ a, aid = some a →
      ∀ res, list_beneficiarios db cu page page_size search aid = Except.ok res →
        ∀ u ∈ res, u.assistente_id = some a ∧ u.role = Role.beneficiario) ∧
    (cu.role = Role.admin → aid = none → search = none → page = 1 →
      (db.filter (fun u => u.role == Role.beneficiario)).length ≤ page_size →
      ∀ res, list_beneficiarios db cu page page_size search aid = Except.ok res →
        ∀ u ∈ db, u.role = Role.beneficiario → u ∈ res) := by
  refine ⟨?_, ?_, ?_⟩
  · intro hrole res hres u hu
    unfold list_beneficiarios at hres
    rw [if_neg (by simp [requireAssistenteOrAdmin, hrole])] at hres
    simp only [hrole, beq_self_eq_true, if_true, Except.ok.injEq] at hres
    subst hres
    unfold paginate at hu
    have h3 := List.mem_of_mem_drop (List.mem_of_mem_take hu)
    have h4 := (List.perm_insertionSort _ _).mem_iff.mp h3
    have h5 : u ∈ (db.filter (fun v => v.role == Role.beneficiario)).filter
        (fun v => v.assistente_id == some cu.id) := by
      cases search with
      | none => exact h4
      | some s => exact List.mem_of_mem_filter h4
    rcases List.mem_filter.mp h5 with ⟨h6, h7⟩
    rcases List.mem_filter.mp h6 with ⟨_, h8⟩
    exact ⟨by simpa using h7, by simpa using h8⟩
  · intro hrole a haid res hres u hu
    unfold list_beneficiarios at hres
    rw [if_neg (by simp [requireAssistenteOrAdmin, hrole])] at hres
    have hrole' : (cu.role == Role.assistente) = false := by
      rw [hrole]
      decide
    simp only [hrole', Bool.false_eq_true, if_false, haid, Except.ok.injEq] at hres
    subst hres
    unfold paginate at hu
    have h3 := List.mem_of_mem_drop (List.mem_of_mem_take hu)
    have h4 := (List.perm_insertionSort _ _).mem_iff.mp h3
    have h5 : u ∈ (db.filter (fun v => v.role == Role.beneficiario)).filter
        (fun v => v.assistente_id == some a) := by
      cases search with
      | none => exact h4
      | some s => exact List.mem_of_mem_filter h4
    rcases List.mem_filter.mp h5 with ⟨h6, h7⟩
    rcases List.mem_filter.mp h6 with ⟨_, h8⟩
    exact ⟨by simpa using h7, by simpa using h8⟩
  · intro hrole haid hsearch hpage hlen res hres u hu hub
    unfold list_beneficiarios at hres
    rw [if_neg (by simp [requireAssistenteOrAdmin, hrole])] at hres
    have hrole' : (cu.role == Role.assistente) = false := by
      rw [hrole]
      decide
    simp only [hrole', Bool.false_eq_true, if_false, haid, hsearch,
      Except.ok.injEq] at hres
    subst hres
    have h1 : u ∈ db.filter (fun v => v.role == Role.beneficiario) :=
      List.mem_filter.mpr ⟨hu, by simpa using hub⟩
    have h2 : u ∈ List.insertionSort (fun x y => y.created_at ≤ x.created_at)
        (db.filter (fun v => v.role == Role.beneficiario)) :=
      (List.perm_insertionSort _ _).mem_iff.mpr h1
    unfold paginate
    rw [hpage]
    simp only [Nat.sub_self, Nat.zero_mul, List.drop_zero]
    rw [List.take_of_length_le]
    · exact h2
    · rw [(List.perm_insertionSort _ _).length_eq]
      exact hlen

/-- Witness for C6: assistant 2 listing beneficiaries over a table holding
beneficiaries of two different assistants receives exactly their own
beneficiary, who is indeed theirs. -/
theorem list_beneficiarios_scoping_witness :
    benefUser.assistente_id = some assistUser.id ∧
    benefUser.role = Role.beneficiario :=
  (list_beneficiarios_scoping [benefUser, benefUser2, assistUser, assistUser2]
      assistUser 1 20 none none).1 rfl [benefUser] (by rfl) benefUser
    (List.mem_singleton.mpr rfl)

-- ===================== Claim C8 =====================

/-- C8 counterexample: the claim says a non-author with role assistant may
edit any article, but the handler only accepts the author or an admin: the
assistant-role user 2 editing the article authored by user 3 is rejected
with 403. -/
theorem update_article_assistant_rejected :
    assistUser.role = Role.assistente ∧
    pendingArticle.author_id ≠ some assistUser.id ∧
    update_article [pendingArticle] 1
        { title := none, body_md := some "novo corpo", tags := none,
          link_doc := none, link_image := none, status := none }
        assistUser 9 =
      Except.error (.forbidden "Você não tem permissão para editar este artigo") := by
  exact ⟨rfl, by decide, by rfl⟩

theorem update_article_eq (db : List Article) (article_id : Nat)
    (data : ArticleUpdate) (cu : User) (now : Nat) (a : Article)
    (hfind : db.find? (fun x => x.id == article_id) = some a) :
    update_article db article_id data cu now =
      if a.author_id ≠ some cu.id ∧ ¬cu.is_admin then
        Except.error (.forbidden "Você não tem permissão para editar este artigo")
      else
        Except.ok (applyArticleUpdate db a data now,
          db.map (fun x => if x.id == article_id then
            applyArticleUpdate db a data now else x)) := by
  unfold update_article
  rw [hfind]

/-- C8 amended: an article update is permitted exactly when the caller is
the article's author or an admin; any other authenticated caller (assistants
included) is rejected with an authorization error, and the error path
returns no updated state. -/
theorem update_article_author_or_admin (db : List Article) (article_id : Nat)
    (data : ArticleUpdate) (cu : User) (now : Nat) (a : Article)
    (hfind : db.find? (fun x => x.id == article_id) = some a) :
    ((∃ r, update_article db article_id data cu now = Except.ok r) ↔
      (a.author_id = some cu.id ∨ cu.role = Role.admin)) ∧
    (¬(a.author_id = some cu.id ∨ cu.role = Role.admin) →
      update_article db article_id data cu now =
        Except.error (.forbidden "Você não tem permissão para editar este artigo")) := by
  have hsplit : (a.author_id ≠ some cu.id ∧ ¬cu.is_admin = true) ↔
      ¬(a.author_id = some cu.id ∨ cu.role = Role.admin) := by
    unfold User.is_admin
    constructor
    · rintro ⟨h1, h2⟩ (h3 | h4)
      · exact h1 h3
      · exact h2 (by simp [h4])
    · intro h
      push_neg at h
      exact ⟨h.1, by simpa using h.2⟩
  rw [update_article_eq db article_id data cu now a hfind]
  constructor
  · constructor
    · rintro ⟨r, hr⟩
      by_contra hcond
      rw [if_pos (hsplit.mpr hcond)] at hr
      cases hr
    · intro hcond
      rw [if_neg (fun hc => (hsplit.mp hc) hcond)]
      exact ⟨_, rfl⟩
  · intro hcond
    rw [if_pos (hsplit.mpr hcond)]

/-- Witness for C8 amended: the author (user 3) may edit their article, and
the editor becomes visible in a successful result. -/
theorem update_article_author_or_admin_witness :
    (∃ r, update_article [pendingArticle] 1
        { title := none, body_md := some "novo corpo", tags := none,
          link_doc := none, link_image := none, status := none }
        benefUser 9 = Except.ok r) ∧
    update_article [pendingArticle] 1
        { title := none, body_md := some "novo corpo", tags := none,
          link_doc := none, link_image := none, status := none }
        assistUser 9 =
      Except.error (.forbidden "Você não tem permissão para editar este artigo") := by
  constructor
  · exact (update_article_author_or_admin [pendingArticle] 1
      { title := none, body_md := some "novo corpo", tags := none,
        link_doc := none, link_image := none, status := none }
      benefUser 9 pendingArticle (by rfl)).1.mpr (Or.inl (by decide))
  · exact (update_article_author_or_admin [pendingArticle] 1
      { title := none, body_md := some "novo corpo", tags := none,
        link_doc := none, link_image := none, status := none }
      assistUser 9 pendingArticle (by rfl)).2 (by decide)

-- ===================== Claim C2 =====================

/-- C2 counterexample: the claim says an anonymous request that does not
present the chat's session_id is rejected, but the handlers never look at a
session id: an anonymous caller reads and even deletes the session-owned
chat 7 without presenting anything. -/
theorem get_chat_anonymous_bypasses_session :
    anonChat.session_id = some "anon_secret" ∧
    get_chat { chats := [anonChat], messages := [] } 7 none =
      Except.ok anonChat ∧
    delete_chat { chats := [anonChat], messages := [] } 7 none =
      Except.ok { chats := [], messages := [] } := by
  exact ⟨rfl, rfl, rfl⟩

/-- C2 amended: on every chat operation an authenticated caller must match
the chat's user_id (403 otherwise), but an anonymous caller is granted
access to any existing chat unconditionally — no session_id is demanded or
checked. -/
theorem chat_access_authenticated_owner_only (st : ChatState) (chat_id : Nat)
    (u : User) (uid : Nat) (chat : Chat)
    (hfind : st.chats.find? (fun c => c.id == chat_id) = some chat)
    (huid : chat.user_id = some uid) (hne : uid ≠ u.id) :
    (get_chat st chat_id (some u) =
      Except.error (.forbidden "Você não tem acesso a este chat")) ∧
    (∀ data now, update_chat st chat_id data (some u) now =
      Except.error (.forbidden "Você não tem acesso a este chat")) ∧
    (delete_chat st chat_id (some u) =
      Except.error (.forbidden "Você não tem acesso a este chat")) ∧
    (∀ data now newId, create_message st chat_id data (some u) now newId =
      Except.error (.forbidden "Você não tem acesso a este chat")) ∧
    (∀ lim, list_messages st chat_id lim (some u) =
      Except.error (.forbidden "Você não tem acesso a este chat")) ∧
    (∀ data now, rate_chat st chat_id data (some u) now =
      Except.error (.forbidden "Você não tem acesso a este chat")) ∧
    (∃ c, get_chat st chat_id none = Except.ok c) ∧
    (∀ data now, ∃ r, update_chat st chat_id data none now = Except.ok r) ∧
    (∃ st', delete_chat st chat_id none = Except.ok st') ∧
    (∀ data now newId, ∃ r,
      create_message st chat_id data none now newId = Except.ok r) ∧
    (∀ lim, ∃ ms, list_messages st chat_id lim none = Except.ok ms) ∧
    (∀ data now, ∃ r, rate_chat st chat_id data none now = Except.ok r) := by
  have hdenied : chatAccessDenied (some u) chat = true := by
    unfold chatAccessDenied
    rw [huid]
    simp [hne]
  have hanon : chatAccessDenied none chat = false := rfl
  have hver : (match (some u : Option User), chat.user_id with
      | some u, some uid => !(uid == u.id)
      | _, _ => false) = true := by
    rw [huid]
    simp [hne]
  have hveranon : (match (none : Option User), chat.user_id with
      | some u, some uid => !(uid == u.id)
      | _, _ => false) = false := by
    cases chat.user_id <;> rfl
  refine ⟨?_, ?_, ?_, ?_, ?_, ?_, ?_, ?_, ?_, ?_, ?_, ?_⟩
  · simp only [get_chat, hfind, hdenied, if_true]
  · intro data now
    simp only [update_chat, hfind, hdenied, if_true]
  · simp only [delete_chat, hfind, hdenied, if_true]
  · intro data now newId
    simp only [create_message, hfind, hdenied, if_true]
  · intro lim
    simp only [list_messages, hfind, hdenied, if_true]
  · intro data now
    simp only [rate_chat, hfind, hver, if_true]
  · simp only [get_chat, hfind, hanon, Bool.false_eq_true, if_false]
    exact ⟨_, rfl⟩
  · intro data now
    simp only [update_chat, hfind, hanon, Bool.false_eq_true, if_false]
    exact ⟨_, rfl⟩
  · simp only [delete_chat, hfind, hanon, Bool.false_eq_true, if_false]
    exact ⟨_, rfl⟩
  · intro data now newId
    simp only [create_message, hfind, hanon, Bool.false_eq_true, if_false]
    exact ⟨_, rfl⟩
  · intro lim
    simp only [list_messages, hfind, hanon, Bool.false_eq_true, if_false]
    exact ⟨_, rfl⟩
  · intro data now
    simp only [rate_chat, hfind, hveranon, Bool.false_eq_true, if_false]
    exact ⟨_, rfl⟩

/-- Witness for C2 amended: user 2 is rejected on chat 8 owned by user 3,
while an anonymous caller is served the same chat. -/
theorem chat_access_authenticated_owner_only_witness :
    get_chat { chats := [ownedChat], messages := [] } 8 (some assistUser) =
      Except.error (.forbidden "Você não tem acesso a este chat") ∧
    ∃ c, get_chat { chats := [ownedChat], messages := [] } 8 none =
      Except.ok c := by
  have h := chat_access_authenticated_owner_only
    { chats := [ownedChat], messages := [] } 8 assistUser 3 ownedChat rfl rfl
    (by decide)
  exact ⟨h.1, h.2.2.2.2.2.2.1⟩

-- ===================== Claim C9 =====================

/-- C9 counterexample: the claim says every chat has exactly one of user_id
and session_id non-null, but an anonymous POST /chats carrying no session_id
stores a chat with both null. -/
theorem create_chat_both_owners_null :
    ((create_chat { chats := [], messages := [] }
        { title := none, session_id := none } none 0 1).1.user_id = none) ∧
    ((create_chat { chats := [], messages := [] }
        { title := none, session_id := none } none 0 1).1.session_id = none) ∧
    (create_chat { chats := [], messages := [] }
        { title := none, session_id := none } none 0 1).2.chats =
      [(create_chat { chats := [], messages := [] }
        { title := none, session_id := none } none 0 1).1] := by
  exact ⟨rfl, rfl, rfl⟩

/-- C9 amended: the code maintains only the weaker invariant that a chat
never carries both owners: an authenticated creation sets user_id and leaves
session_id null, an anonymous creation copies the (possibly absent)
session_id and leaves user_id null, the anonymous-session endpoint sets a
fresh session_id, and every mutating chat operation preserves the
at-most-one-owner invariant. -/
theorem chat_ownership_at_most_one_preserved (st : ChatState)
    (hinv : ∀ c ∈ st.chats, chatOwnershipAtMostOne c) :
    (∀ data u now newId,
      (create_chat st data (some u) now newId).1.user_id = some u.id ∧
      (create_chat st data (some u) now newId).1.session_id = none ∧
      ∀ c ∈ (create_chat st data (some u) now newId).2.chats,
        chatOwnershipAtMostOne c) ∧
    (∀ data now newId,
      (create_chat st data none now newId).1.user_id = none ∧
      (create_chat st data none now newId).1.session_id = data.session_id ∧
      ∀ c ∈ (create_chat st data none now newId).2.chats,
        chatOwnershipAtMostOne c) ∧
    (∀ sid now newId,
      (create_anonymous_session st sid now newId).1.user_id = none ∧
      (create_anonymous_session st sid now newId).1.session_id = some sid ∧
      ∀ c ∈ (create_anonymous_session st sid now newId).2.chats,
        chatOwnershipAtMostOne c) ∧
    (∀ chat_id data cu now r st',
      update_chat st chat_id data cu now = Except.ok (r, st') →
      ∀ c ∈ st'.chats, chatOwnershipAtMostOne c) ∧
    (∀ chat_id cu st', delete_chat st chat_id cu = Except.ok st' →
      ∀ c ∈ st'.chats, chatOwnershipAtMostOne c) ∧
    (∀ chat_id data cu now newId m st',
      create_message st chat_id data cu now newId = Except.ok (m, st') →
      ∀ c ∈ st'.chats, chatOwnershipAtMostOne c) ∧
    (∀ chat_id data cu now r st',
      rate_chat st chat_id data cu now = Except.ok (r, st') →
      ∀ c ∈ st'.chats, chatOwnershipAtMostOne c) := by
  refine ⟨?_, ?_, ?_, ?_, ?_, ?_, ?_⟩
  · intro data u now newId
    refine ⟨rfl, rfl, ?_⟩
    intro c hc
    rcases List.mem_append.mp hc with h | h
    · exact hinv c h
    · have hc' := List.mem_singleton.mp h
      subst hc'
      exact Or.inr rfl
  · intro data now newId
    refine ⟨rfl, rfl, ?_⟩
    intro c hc
    rcases List.mem_append.mp hc with h | h
    · exact hinv c h
    · have hc' := List.mem_singleton.mp h
      subst hc'
      exact Or.inl rfl
  · intro sid now newId
    refine ⟨rfl, rfl, ?_⟩
    intro c hc
    rcases List.mem_append.mp hc with h | h
    · exact hinv c h
    · have hc' := List.mem_singleton.mp h
      subst hc'
      exact Or.inl rfl
  · intro chat_id data cu now r st' hok
    unfold update_chat at hok
    split at hok
    · cases hok
    · rename_i chat hfind
      split at hok
      · cases hok
      · simp only [Except.ok.injEq, Prod.mk.injEq] at hok
        obtain ⟨-, rfl⟩ := hok
        intro c hc
        rcases List.mem_map.mp hc with ⟨c0, hc0, rfl⟩
        by_cases h : c0.id == chat_id
        · rw [if_pos h]
          exact hinv chat (List.mem_of_find?_eq_some hfind)
        · rw [if_neg h]
          exact hinv c0 hc0
  · intro chat_id cu st' hok
    unfold delete_chat at hok
    split at hok
    · cases hok
    · rename_i chat hfind
      split at hok
      · cases hok
      · simp only [Except.ok.injEq] at hok
        subst hok
        intro c hc
        exact hinv c (List.mem_of_mem_filter hc)
  · intro chat_id data cu now newId m st' hok
    unfold create_message at hok
    split at hok
    · cases hok
    · rename_i chat hfind
      split at hok
      · cases hok
      · simp only [Except.ok.injEq, Prod.mk.injEq] at hok
        obtain ⟨-, rfl⟩ := hok
        intro c hc
        rcases List.mem_map.mp hc with ⟨c0, hc0, rfl⟩
        by_cases h : c0.id == chat_id
        · rw [if_pos h]
          exact hinv chat (List.mem_of_find?_eq_some hfind)
        · rw [if_neg h]
          exact hinv c0 hc0
  · intro chat_id data cu now r st' hok
    unfold rate_chat at hok
    split at hok
    · cases hok
    · rename_i chat hfind
      split at hok
      · cases hok
      · simp only [Except.ok.injEq, Prod.mk.injEq] at hok
        obtain ⟨-, rfl⟩ := hok
        intro c hc
        rcases List.mem_map.mp hc with ⟨c0, hc0, rfl⟩
        by_cases h : c0.id == chat_id
        · rw [if_pos h]
          exact hinv chat (List.mem_of_find?_eq_some hfind)
        · rw [if_neg h]
          exact hinv c0 hc0

/-- Witness for C9 amended: an authenticated creation over a well-owned
table yields a user-owned chat with no session. -/
theorem chat_ownership_at_most_one_preserved_witness :
    (create_chat { chats := [anonChat], messages := [] }
        { title := some "ajuda", session_id := none }
        (some benefUser) 3 9).1.user_id = some benefUser.id ∧
    (create_chat { chats := [anonChat], messages := [] }
        { title := some "ajuda", session_id := none }
        (some benefUser) 3 9).1.session_id = none := by
  have h := (chat_ownership_at_most_one_preserved
      { chats := [anonChat], messages := [] }
      (by
        intro c hc
        have hc' : c = anonChat := by simpa using hc
        subst hc'
        exact Or.inl rfl)).1
    { title := some "ajuda", session_id := none } benefUser 3 9
  exact ⟨h.1, h.2.1⟩

-- ===================== Claim C10 =====================

/-- C10: hash_password raises exactly when the password's UTF-8 encoding
exceeds 72 bytes and never raises at or below that bound; since register
validates only a 6-character minimum, an over-72-byte password passes the
length check and hits the uncaught error before any user row is created. -/
theorem hash_password_byte_limit (bcryptHash : String → String) (pw : String)
    (db : List User) (email name : String) (social cpf : Option String)
    (now newId : Nat) :
    ((∃ e, hash_password bcryptHash pw = Except.error e) ↔
      72 < pw.utf8ByteSize) ∧
    (72 < pw.utf8ByteSize →
      hash_password bcryptHash pw =
        Except.error (.valueError "Senha deve ter no máximo 72 bytes")) ∧
    (pw.utf8ByteSize ≤ 72 →
      hash_password bcryptHash pw = Except.ok (bcryptHash pw)) ∧
    (6 ≤ pw.length → 72 < pw.utf8ByteSize →
      (db.find? (fun u => u.email == email)).isSome = false →
      cpf = none →
      register bcryptHash db email pw name social cpf now newId =
        Except.error (.valueError "Senha deve ter no máximo 72 bytes")) := by
  have hsmall : ∀ h : 72 < pw.utf8ByteSize, hash_password bcryptHash pw =
      Except.error (.valueError "Senha deve ter no máximo 72 bytes") := by
    intro h
    unfold hash_password
    rw [if_pos h]
  have hbig : ∀ h : pw.utf8ByteSize ≤ 72,
      hash_password bcryptHash pw = Except.ok (bcryptHash pw) := by
    intro h
    unfold hash_password
    rw [if_neg (by omega)]
  refine ⟨⟨?_, ?_⟩, hsmall, hbig, ?_⟩
  · rintro ⟨e, he⟩
    by_contra hle
    rw [hbig (by omega)] at he
    cases he
  · intro h
    exact ⟨_, hsmall h⟩
  · intro hlen hbytes hemail hcpf
    subst hcpf
    have h1 : ¬pw.length < 6 := by omega
    unfold register
    rw [if_neg h1]
    have hnorm : normalizeCpf none = Except.ok none := rfl
    rw [hnorm]
    simp [hemail, hsmall hbytes]

/-- Witness for C10: a 37-character password of two-byte characters (74
UTF-8 bytes) passes the six-character validation and then fails
registration with the uncaught 72-byte error. -/
theorem hash_password_byte_limit_witness :
    register (fun s => s) [] "a@x.com"
        "ççççççççççççççççççççççççççççççççççççç" "Nome" none none 0 1 =
      Except.error (.valueError "Senha deve ter no máximo 72 bytes") :=
  (hash_password_byte_limit (fun s => s)
      "ççççççççççççççççççççççççççççççççççççç" [] "a@x.com" "Nome" none none
      0 1).2.2.2 (by decide) (by decide) (by rfl) rfl

end ApiCore
